import Mathlib

/-!
Shallow embedding of the scalar-function registration wrapper of
`Mause/duckdb-rs` (`src/vfunc.rs` and its FFI declaration module
`src/vfunc/modname.rs`).

Modelling choices, from the source:

* The engine's descriptor handle (`duckdb_scalar_function`) is opaque; the
  wrapper only issues FFI calls against it.  We therefore embed a
  `ScalarFunction` value as the ordered trace of FFI calls issued so far
  (`List FFICall`), which is exactly what the wrapper-side code determines.
* Machine strings (`&str`, `CString`) are byte lists (`List Nat`); the NUL
  byte is `0`.  `CString::new` fails precisely when the byte list contains
  an interior `0`, and otherwise appends the terminator — as in Rust.
* Logical type handles are opaque; we embed them as the `Nat` identity of
  the pointer the wrapper passes through (`param.ptr`).
* Rust panics (`unwrap` on `Err`, or a panic inside a user callback) are
  explicit outcome constructors: the source contains no `catch_unwind`, so
  in the embedding a panic in a callee propagates to the caller.
* `duckdb_register_scalar_function` is a foreign engine call; its status
  result is an input (`rc : Nat`) to the embedding of the wrapper code that
  consumes it.  `DuckDBSuccess` is status `0` in the engine's `duckdb_state`
  enumeration.
-/

/-- The engine status code for success (`DuckDBSuccess` in `duckdb_state`). -/
def duckDBSuccess : Nat := 0

/-- The destructor function pointer passed to
`duckdb_scalar_function_set_extra_info`.  The wrapper only ever passes
`drop_data_c::<T>`, a generic function monomorphised per concrete auxiliary
data type `T`; we embed the concrete type `T` as a `Nat` tag, so distinct
tags give distinct (non-interchangeable) destructor instantiations. -/
inductive DestructorFn where
  | dropDataC (typeTag : Nat)
  deriving DecidableEq, Repr

/-- One FFI call the wrapper can issue against the engine
(`src/vfunc/modname.rs`).  `setName` records the null-terminated byte
string produced by `CString::new`; `addParameter` and `setReturnType`
record the logical-type handle passed through; `setExtraInfo` records the
auxiliary pointer and the (optional, per the C signature
`duckdb_delete_callback_t`) destructor pointer. -/
inductive FFICall where
  | createScalarFunction
  | setName (bytes : List Nat)
  | setFunction
  | addParameter (typePtr : Nat)
  | setReturnType (typePtr : Nat)
  | setExtraInfo (ptr : Nat) (destroy : Option DestructorFn)
  | registerScalarFunction
  deriving DecidableEq, Repr

/-- The error type surfaced to callers of the wrapper (`crate::Error`).
`duckDBFailure code message` embeds `Error::DuckDBFailure(ffi::Error::new(rc),
message)`.  `encodingError` embeds the error value the specification says
`set_name` returns on an embedded NUL byte; the source never constructs it
(it is present so that that specified behaviour is statable). -/
inductive Error where
  | duckDBFailure (code : Nat) (message : Option String)
  | encodingError
  deriving DecidableEq, Repr

/-- Rust's `CString::new` over a byte string: fails iff the bytes contain an
interior NUL, otherwise appends the terminating NUL. -/
def cstringNew (s : List Nat) : Except Unit (List Nat) :=
  if 0 ∈ s then Except.error () else Except.ok (s ++ [0])

/-- Outcome of one wrapper-side builder call.  The Rust methods return
`&mut Self`, so the only possible outcomes in the source are `ok` (with the
descriptor's updated FFI trace) and `panicked` (an `unwrap` panic; the trace
records the FFI calls actually made before the panic).  `errReturned` is the
outcome the specification claims for `set_name` on a bad name — an error
value returned to the caller — which the source signature cannot produce. -/
inductive SetterOutcome where
  | ok (trace : List FFICall)
  | errReturned (e : Error) (trace : List FFICall)
  | panicked (trace : List FFICall)
  deriving DecidableEq, Repr

/-- `ScalarFunction::new`: calls `duckdb_create_scalar_function`. -/
def ScalarFunction.new : List FFICall := [FFICall.createScalarFunction]

/-- `ScalarFunction::set_name`: `CString::new(name).unwrap()` then
`duckdb_scalar_function_set_name`.  When `name` contains an embedded NUL,
`CString::new` yields `Err` and `.unwrap()` panics; the FFI call is never
reached, so the trace is unchanged. -/
def ScalarFunction.set_name (tr : List FFICall) (name : List Nat) : SetterOutcome :=
  match cstringNew name with
  | Except.error _ => SetterOutcome.panicked tr
  | Except.ok bytes => SetterOutcome.ok (tr ++ [FFICall.setName bytes])

/-- `ScalarFunction::set_function`: calls
`duckdb_scalar_function_set_function` with the trampoline pointer. -/
def ScalarFunction.set_function (tr : List FFICall) : SetterOutcome :=
  SetterOutcome.ok (tr ++ [FFICall.setFunction])

/-- `ScalarFunction::add_parameter`: calls
`duckdb_scalar_function_add_parameter` with `param.ptr`. -/
def ScalarFunction.add_parameter (tr : List FFICall) (typePtr : Nat) : SetterOutcome :=
  SetterOutcome.ok (tr ++ [FFICall.addParameter typePtr])

/-- `ScalarFunction::set_return_type`: calls
`duckdb_scalar_function_set_return_type` with `return_type.ptr`. -/
def ScalarFunction.set_return_type (tr : List FFICall) (typePtr : Nat) : SetterOutcome :=
  SetterOutcome.ok (tr ++ [FFICall.setReturnType typePtr])

/-- `ScalarFunction::set_extra_info::<T>`: calls
`duckdb_scalar_function_set_extra_info(self.0, extra_info.cast(),
Some(drop_data_c::<T>))` — the destructor argument is always
`Some(drop_data_c::<T>)`, the monomorphisation of `drop_data_c` at `T`. -/
def ScalarFunction.set_extra_info (tr : List FFICall) (ptr typeTag : Nat) : SetterOutcome :=
  SetterOutcome.ok (tr ++ [FFICall.setExtraInfo ptr (some (DestructorFn.dropDataC typeTag))])

/-- Outcome of `Connection::register_scalar_function`: either a panic
propagated out of a builder call (trace = FFI calls already made), or the
function finished with the trace of all FFI calls made and the `Result` the
Rust function returns. -/
inductive RegOutcome where
  | panicked (trace : List FFICall)
  | errReturned (e : Error) (trace : List FFICall)
  | finished (trace : List FFICall) (res : Except Error Unit)
  deriving Repr

/-- Sequencing of builder calls inside `Connection::register_scalar_function`:
a panic or a returned error in one call propagates, otherwise the next call
runs on the updated trace (Rust control flow). -/
def SetterOutcome.andThen (o : SetterOutcome) (f : List FFICall → RegOutcome) : RegOutcome :=
  match o with
  | SetterOutcome.ok tr => f tr
  | SetterOutcome.errReturned e tr => RegOutcome.errReturned e tr
  | SetterOutcome.panicked tr => RegOutcome.panicked tr

/-- The `for param in Func::parameters().unwrap_or_default()` loop: one
`add_parameter` call per element, in list order. -/
def addAllParameters : List FFICall → List Nat → SetterOutcome
  | tr, [] => SetterOutcome.ok tr
  | tr, p :: ps =>
    match ScalarFunction.add_parameter tr p with
    | SetterOutcome.ok tr2 => addAllParameters tr2 ps
    | o => o

/-- `InnerConnection::register_scalar_function`: issues the single
`duckdb_register_scalar_function` engine call, whose status `rc` is an input
to the embedding; returns `Err(Error::DuckDBFailure(ffi::Error::new(rc),
None))` when `rc` is not `DuckDBSuccess`, and `Ok(())` otherwise. -/
def InnerConnection.register_scalar_function (tr : List FFICall) (rc : Nat) : RegOutcome :=
  let tr2 := tr ++ [FFICall.registerScalarFunction]
  if rc ≠ duckDBSuccess then
    RegOutcome.finished tr2 (Except.error (Error.duckDBFailure rc none))
  else
    RegOutcome.finished tr2 (Except.ok ())

/-- `Connection::register_scalar_function::<Func>(name)`: creates a fresh
descriptor, sets the name, the callback and `Func::return_type()`, appends
every element of `Func::parameters().unwrap_or_default()` in order, then
registers.  `params` embeds `Func::parameters()` (default `None`), `ret`
embeds `Func::return_type().ptr`, and `rc` the engine's registration
status. -/
def Connection.register_scalar_function
    (name : List Nat) (params : Option (List Nat)) (ret : Nat) (rc : Nat) : RegOutcome :=
  (ScalarFunction.set_name ScalarFunction.new name).andThen fun tr =>
  (ScalarFunction.set_function tr).andThen fun tr =>
  (ScalarFunction.set_return_type tr ret).andThen fun tr =>
  (addAllParameters tr (params.getD [])).andThen fun tr =>
  InnerConnection.register_scalar_function tr rc

/-!
The callback trampoline `virtual_function::<Func>` and the two user
functions of the test module.  Per-call views: a `DataChunk` is a list of
input columns (each a list of `i64` cells for these functions), a
`FlatVector` is the engine-owned output buffer viewed as a slice, embedded
as a total map from slot index to cell so that slots the user function does
not write keep their previous content.  The `FunctionInfo` handle is used by
the trampoline only for `set_error`, and by `ExtraInfoFunc` for
`get_extra_info::<ExtraInfoStruct>`; we embed the handle as carrying the
`i64` field of the `ExtraInfoStruct` it can resolve. -/

/-- Output vector view (`FlatVector` / `as_mut_slice::<i64>`). -/
def FlatVec : Type := Nat → Int

/-- Input chunk view: the list of input columns. -/
def DataChunk : Type := List (List Int)

/-- `DataChunk::flat_vector(idx)`: the column at `idx`. -/
def DataChunk.flat_vector (dc : DataChunk) (idx : Nat) : List Int :=
  List.getD dc idx []

/-- The engine's function-info handle, as far as the wrapped code reads it:
`get_extra_info::<ExtraInfoStruct>` resolves to a struct whose single field
is `extraValue`. -/
structure FunctionInfo where
  extraValue : Int

/-- Result of one invocation of a user `VFunc::func` body: `ok` with the
output vector as written, `err` with the rendered error message
(`err.to_string()`) and the output as (possibly partially) written, or a
language-level panic. -/
inductive UserOutcome where
  | ok (out : FlatVec)
  | err (msg : String) (out : FlatVec)
  | panicked

/-- A user function implementation (`Func::func` of some `Func : VFunc`). -/
def UserFunc : Type := FunctionInfo → DataChunk → FlatVec → UserOutcome

/-- What one trampoline invocation did: the arguments of the
`function_info.set_error` calls it made, in order, and the output vector as
left by the call. -/
structure TrampolineReturn where
  setErrorCalls : List String
  out : FlatVec

/-- Outcome of one trampoline invocation: it either returns normally (the C
signature returns `void`, so `returned` carries no error result) or a panic
unwinds out of the `extern` function. -/
inductive TrampolineOutcome where
  | returned (r : TrampolineReturn)
  | unwound

/-- `virtual_function::<Func>`: wraps the three raw handles into views,
invokes `Func::func`, and on an `Err(err)` result calls
`function_info.set_error(err.to_string().as_ref())`; it contains no
`catch_unwind`, so a panic inside `Func::func` propagates out of the
`extern` function. -/
def virtual_function (f : UserFunc) (info : FunctionInfo) (input : DataChunk)
    (output : FlatVec) : TrampolineOutcome :=
  match f info input output with
  | UserOutcome.ok out => TrampolineOutcome.returned ⟨[], out⟩
  | UserOutcome.err msg out => TrampolineOutcome.returned ⟨[msg], out⟩
  | UserOutcome.panicked => TrampolineOutcome.unwound

/-- Two's-complement wrap-around at 64 bits: the value the `i64`
multiplication `input[i] * 2` stores in the slice.  Rust release builds wrap
on overflow (debug builds panic there instead; either way the mathematical
product is not produced once it leaves the `i64` range). -/
def wrapI64 (x : Int) : Int := (x + 2 ^ 63) % 2 ^ 64 - 2 ^ 63

/-- `BasicFunc::func`: reads input column `0` and, for every row index `i`
below the column length, stores the `i64` product `input[i] * 2` — the
64-bit wrap of the mathematical product — into the output slice, returning
`Ok(())`. -/
def BasicFunc.func : UserFunc := fun _ input output =>
  let inp := input.flat_vector 0
  UserOutcome.ok fun i =>
    if h : i < inp.length then wrapI64 (inp.get ⟨i, h⟩ * 2) else output i

/-- `ExtraInfoFunc::func`: reads input column `0` and writes
`output[i] = input[i] * (*func.get_extra_info::<ExtraInfoStruct>()).0` for
every row index `i` below the column length, returning `Ok(())`. -/
def ExtraInfoFunc.func : UserFunc := fun info input output =>
  let inp := input.flat_vector 0
  UserOutcome.ok fun i =>
    if h : i < inp.length then inp.get ⟨i, h⟩ * info.extraValue else output i

/-- A user function whose body raises a language-level fault (a panic): the
`VFunc::func` contract does not forbid this, and the trait is implemented by
arbitrary user code. -/
def panickingUser : UserFunc := fun _ _ _ => UserOutcome.panicked

/-- `true` iff a trampoline invocation stayed inside the callback boundary
(returned normally) rather than letting a fault unwind out of the `extern`
function. -/
def caughtAtBoundary : TrampolineOutcome → Bool
  | TrampolineOutcome.returned _ => true
  | TrampolineOutcome.unwound => false

/-- Modelled from the spec: the engine-side state of the opaque descriptor
as mutated by the FFI setter calls.  The engine's implementation of
`duckdb_scalar_function_set_name` / `..._add_parameter` /
`..._set_return_type` / `..._set_extra_info` is not part of this
repository; §4.1 of the specification gives their contracts (attach name,
append parameter in order, set exactly one return type with last-write-wins
overwrite, attach auxiliary pointer and destructor). -/
structure DescriptorState where
  name : Option (List Nat)
  parameters : List Nat
  returnType : Option Nat
  hasCallback : Bool
  extraInfo : Option (Nat × Option DestructorFn)
  deriving DecidableEq, Repr

/-- Modelled from the spec: the effect of one FFI call on the engine-side
descriptor state (`create` and `register` do not mutate the descriptor's
attributes). -/
def DescriptorState.applyCall (d : DescriptorState) : FFICall → DescriptorState
  | FFICall.createScalarFunction => d
  | FFICall.setName bs => { d with name := some bs }
  | FFICall.setFunction => { d with hasCallback := true }
  | FFICall.addParameter p => { d with parameters := d.parameters ++ [p] }
  | FFICall.setReturnType t => { d with returnType := some t }
  | FFICall.setExtraInfo p dfn => { d with extraInfo := some (p, dfn) }
  | FFICall.registerScalarFunction => d

/-- An all-zero output buffer, used as a concrete initial output vector. -/
def zeroVec : FlatVec := fun _ => 0

/-- A user function that returns `Err` with a fixed rendered message,
leaving the output untouched. -/
def failingUser : UserFunc := fun _ _ output =>
  UserOutcome.err "user function failed" output

/-- Every trace produced by the `for`-loop over the parameter list: one
`addParameter` call per element, appended in order. -/
theorem addAllParameters_eq (ps : List Nat) :
    ∀ tr, addAllParameters tr ps = SetterOutcome.ok (tr ++ ps.map FFICall.addParameter) := by
  induction ps with
  | nil => intro tr; simp [addAllParameters]
  | cons p ps ih =>
    intro tr
    simp [addAllParameters, ScalarFunction.add_parameter, ih, List.append_assoc]

/-- C1 (counterexample): calling `set_name` on the one-byte name consisting
of a NUL byte does not return an `EncodingError` value to the caller — the
`CString::new(..).unwrap()` panics instead (and no FFI call is made: the
trace is unchanged). -/
theorem c1_counterexample :
    ScalarFunction.set_name ScalarFunction.new [0] =
      SetterOutcome.panicked ScalarFunction.new ∧
    ScalarFunction.set_name ScalarFunction.new [0] ≠
      SetterOutcome.errReturned Error.encodingError ScalarFunction.new := by
  decide

/-- C1 (amended): for every name containing an embedded NUL byte, `set_name`
fails by panicking (the `unwrap` of the `CString::new` error) before any
engine (FFI) call is made with that name — the descriptor's FFI trace is
unchanged; no error value is returned to the caller. -/
theorem c1_set_name_panics (tr : List FFICall) (name : List Nat) (h : 0 ∈ name) :
    ScalarFunction.set_name tr name = SetterOutcome.panicked tr := by
  simp [ScalarFunction.set_name, cstringNew, h]

/-- C1 witness: the amended statement at the concrete name `[0]`. -/
theorem c1_witness :
    0 ∈ ([0] : List Nat) ∧
      ScalarFunction.set_name [] [0] = SetterOutcome.panicked [] :=
  ⟨by decide, c1_set_name_panics [] [0] (by decide)⟩

/-- C4: `register` issues the engine registration call exactly once (the
trace grows by exactly the one `registerScalarFunction` call, no retry),
returns `Ok(())` iff the engine reports `DuckDBSuccess`, and for every
non-success status returns the structured error value carrying that status
code (with its optional message slot). -/
theorem c4_register_status (tr : List FFICall) (rc : Nat) :
    ∃ res, InnerConnection.register_scalar_function tr rc =
        RegOutcome.finished (tr ++ [FFICall.registerScalarFunction]) res ∧
      (res = Except.ok () ↔ rc = duckDBSuccess) ∧
      (rc ≠ duckDBSuccess → res = Except.error (Error.duckDBFailure rc none)) := by
  by_cases h : rc = duckDBSuccess
  · exact ⟨Except.ok (), by simp [InnerConnection.register_scalar_function, h],
      by simp [h], by simp [h]⟩
  · refine ⟨Except.error (Error.duckDBFailure rc none), ?_, ?_, ?_⟩ <;>
      simp [InnerConnection.register_scalar_function, h]

/-- C4 witness: the statement at status code `1` (`DuckDBError`) and the
empty prior trace. -/
theorem c4_witness :
    ∃ res, InnerConnection.register_scalar_function [] 1 =
        RegOutcome.finished ([] ++ [FFICall.registerScalarFunction]) res ∧
      (res = Except.ok () ↔ 1 = duckDBSuccess) ∧
      (1 ≠ duckDBSuccess → res = Except.error (Error.duckDBFailure 1 none)) :=
  c4_register_status [] 1

/-- C10: on every non-success engine status, the error value `register`
returns carries `None` as its message component — the wrapper never attaches
an engine-provided message on this path. -/
theorem c10_message_always_none (tr : List FFICall) (rc : Nat) (h : rc ≠ duckDBSuccess) :
    InnerConnection.register_scalar_function tr rc =
      RegOutcome.finished (tr ++ [FFICall.registerScalarFunction])
        (Except.error (Error.duckDBFailure rc none)) := by
  simp [InnerConnection.register_scalar_function, h]

/-- C10 witness: the statement at status code `1` and the empty prior
trace. -/
theorem c10_witness :
    (1 : Nat) ≠ duckDBSuccess ∧
      InnerConnection.register_scalar_function [] 1 =
        RegOutcome.finished ([] ++ [FFICall.registerScalarFunction])
          (Except.error (Error.duckDBFailure 1 none)) :=
  ⟨by decide, c10_message_always_none [] 1 (by decide)⟩

/-- C5: for every name, parameter list and return type,
`Connection::register_scalar_function` creates the descriptor first, then
sets the name, the callback and the return type, then appends the parameter
types in exactly the order of `Func::parameters()`, and issues the engine
registration call last; when `Func::parameters()` is `None`, no parameter is
appended and the zero-arity registration still reaches the engine.  (For a
name containing an embedded NUL byte the builder panics right after the
`create` call — see C1 — so only names without one reach registration.) -/
theorem c5_register_sequence (name : List Nat) (params : Option (List Nat)) (ret rc : Nat) :
    (0 ∉ name →
      ∃ res, Connection.register_scalar_function name params ret rc =
        RegOutcome.finished
          ([FFICall.createScalarFunction, FFICall.setName (name ++ [0]),
            FFICall.setFunction, FFICall.setReturnType ret]
            ++ (params.getD []).map FFICall.addParameter
            ++ [FFICall.registerScalarFunction]) res) ∧
    (0 ∈ name →
      Connection.register_scalar_function name params ret rc =
        RegOutcome.panicked [FFICall.createScalarFunction]) ∧
    (params = none → (params.getD []).map FFICall.addParameter = ([] : List FFICall)) := by
  refine ⟨?_, ?_, ?_⟩
  · intro h
    have hb : cstringNew name = Except.ok (name ++ [0]) := by simp [cstringNew, h]
    by_cases hrc : rc = duckDBSuccess
    · refine ⟨Except.ok (), ?_⟩
      simp [Connection.register_scalar_function, ScalarFunction.new, ScalarFunction.set_name,
        hb, SetterOutcome.andThen, ScalarFunction.set_function, ScalarFunction.set_return_type,
        addAllParameters_eq, InnerConnection.register_scalar_function, hrc]
    · refine ⟨Except.error (Error.duckDBFailure rc none), ?_⟩
      simp [Connection.register_scalar_function, ScalarFunction.new, ScalarFunction.set_name,
        hb, SetterOutcome.andThen, ScalarFunction.set_function, ScalarFunction.set_return_type,
        addAllParameters_eq, InnerConnection.register_scalar_function, hrc]
  · intro h
    simp [Connection.register_scalar_function, ScalarFunction.new, ScalarFunction.set_name,
      cstringNew, h, SetterOutcome.andThen]
  · intro h
    subst h
    rfl

/-- C5 witness: the full call sequence at a concrete name, two concrete
parameter types, a concrete return type and a successful status. -/
theorem c5_witness :
    ∃ res, Connection.register_scalar_function [65] (some [7, 8]) 3 0 =
      RegOutcome.finished
        ([FFICall.createScalarFunction, FFICall.setName ([65] ++ [0]),
          FFICall.setFunction, FFICall.setReturnType 3]
          ++ ([7, 8].map FFICall.addParameter)
          ++ [FFICall.registerScalarFunction]) res :=
  (c5_register_sequence [65] (some [7, 8]) 3 0).1 (by decide)

/-- C9: calling `set_return_type` with `t1` and then `t2` leaves the
engine-side descriptor with return type `t2` (last-write-wins on the
spec-modelled descriptor state), and neither wrapper call returns an error —
each is total and yields `ok` with the next trace. -/
theorem c9_return_type_last_write_wins (d : DescriptorState) (t1 t2 : Nat) (tr : List FFICall) :
    ((d.applyCall (FFICall.setReturnType t1)).applyCall (FFICall.setReturnType t2)).returnType
        = some t2 ∧
    ∃ tr1, ScalarFunction.set_return_type tr t1 = SetterOutcome.ok tr1 ∧
      ∃ tr2, ScalarFunction.set_return_type tr1 t2 = SetterOutcome.ok tr2 :=
  ⟨rfl, tr ++ [FFICall.setReturnType t1], rfl, tr ++ [FFICall.setReturnType t1] ++ [FFICall.setReturnType t2], rfl⟩

/-- C8: `set_extra_info` always supplies a destructor in the same FFI call
(the destructor argument is `some _`, never absent), and the destructor
supplied is the `drop_data_c` trampoline monomorphised at the concrete
auxiliary-data type: distinct type instantiations give distinct destructor
values, not one shared runtime-polymorphic release path. -/
theorem c8_extra_info_destructor (tr : List FFICall) (ptr t : Nat) :
    ScalarFunction.set_extra_info tr ptr t =
      SetterOutcome.ok (tr ++ [FFICall.setExtraInfo ptr (some (DestructorFn.dropDataC t))]) ∧
    ∀ a b : Nat, DestructorFn.dropDataC a = DestructorFn.dropDataC b → a = b :=
  ⟨rfl, fun _ _ h => DestructorFn.dropDataC.inj h⟩

/-- C8 witness: the statement at a concrete pointer and type tag. -/
theorem c8_witness :
    ScalarFunction.set_extra_info [] 5 7 =
      SetterOutcome.ok [FFICall.setExtraInfo 5 (some (DestructorFn.dropDataC 7))] :=
  (c8_extra_info_destructor [] 5 7).1

/-- C2: whenever the user function returns a failure value, the trampoline
calls the function-info handle's error-setting operation exactly once with
the failure's rendered message and returns normally; whenever it returns
success, the trampoline returns normally with no error-setting call.  In
both cases the outcome is `returned` — no crash and no error through the
trampoline's own (void) return value. -/
theorem c2_trampoline_error_translation (f : UserFunc) (info : FunctionInfo)
    (input : DataChunk) (output : FlatVec) :
    (∀ msg out, f info input output = UserOutcome.err msg out →
      virtual_function f info input output = TrampolineOutcome.returned ⟨[msg], out⟩) ∧
    (∀ out, f info input output = UserOutcome.ok out →
      virtual_function f info input output = TrampolineOutcome.returned ⟨[], out⟩) := by
  constructor
  · intro msg out h
    simp [virtual_function, h]
  · intro out h
    simp [virtual_function, h]

/-- C2 witness: the failure branch at a concrete failing user function. -/
theorem c2_witness :
    virtual_function failingUser ⟨0⟩ [] zeroVec =
      TrampolineOutcome.returned ⟨["user function failed"], zeroVec⟩ :=
  (c2_trampoline_error_translation failingUser ⟨0⟩ [] zeroVec).1 "user function failed" zeroVec rfl

/-- C3 (counterexample): a user function that raises a language-level fault
(a panic) instead of returning an error value is not caught at the
trampoline's outer edge — the fault unwinds out of the `extern` function
(there is no catch-all guard in `virtual_function`), refuting the claim that
any failure whatsoever is converted into the engine's error-reporting
call. -/
theorem c3_counterexample :
    caughtAtBoundary (virtual_function panickingUser ⟨0⟩ [] zeroVec) = false :=
  rfl

/-- C3 (amended): the trampoline converts exactly the failures the user
function returns as error values into the engine's error-reporting call; a
fault not returned as an error value (a panic) unwinds out of the `extern`
function — the trampoline's outcome is `unwound` precisely when the user
function panicked. -/
theorem c3_unwind_iff_panic (f : UserFunc) (info : FunctionInfo)
    (input : DataChunk) (output : FlatVec) :
    virtual_function f info input output = TrampolineOutcome.unwound ↔
      f info input output = UserOutcome.panicked := by
  cases h : f info input output <;> simp [virtual_function, h]

/-- C3 witness: the amended statement applied to a non-panicking user
function — its invocation does not unwind. -/
theorem c3_witness :
    virtual_function failingUser ⟨0⟩ [] zeroVec ≠ TrampolineOutcome.unwound := by
  intro h
  have hp := (c3_unwind_iff_panic failingUser ⟨0⟩ [] zeroVec).mp h
  simp [failingUser] at hp

/-- The 64-bit wrap is the identity exactly on values already in the `i64`
range. -/
theorem wrapI64_eq_of_bounds (x : Int) (h1 : -(2 ^ 63) ≤ x) (h2 : x < 2 ^ 63) :
    wrapI64 x = x := by
  have hpow : (2 : Int) ^ 64 = 2 ^ 63 + 2 ^ 63 := by norm_num
  unfold wrapI64
  rw [Int.emod_eq_of_lt (by linarith) (by linarith)]
  ring

/-- C7 (counterexample): at the one-row batch holding `i64::MAX`, the `i64`
code does not write `2 * input[0]`: the release-build product wraps to `-2`
(a debug build panics on the same input), so the claimed
`output[i] = 2 * input[i]` fails there. -/
theorem c7_counterexample :
    ∃ out, BasicFunc.func ⟨0⟩ [[2 ^ 63 - 1]] zeroVec = UserOutcome.ok out ∧
      out 0 = -2 ∧ out 0 ≠ 2 * (2 ^ 63 - 1) := by
  refine ⟨_, rfl, ?_, ?_⟩ <;> norm_num [DataChunk.flat_vector, wrapI64]

/-- C7 (amended): for every input batch, `BasicFunc::func` succeeds, its
invocation through the trampoline returns normally with no error-setting
call, and the output holds the 64-bit `i64` product `input[i] * 2` at every
row index `i` of input column `0` — equal to the mathematical `input[i] * 2`
whenever that product lies in the `i64` range; slots beyond the batch keep
their prior content, and input value `1` yields `2`. -/
theorem c7_basic_double (info : FunctionInfo) (input : DataChunk) (output : FlatVec) :
    ∃ out, BasicFunc.func info input output = UserOutcome.ok out ∧
      virtual_function BasicFunc.func info input output = TrampolineOutcome.returned ⟨[], out⟩ ∧
      (∀ i, ∀ h : i < (input.flat_vector 0).length,
        out i = wrapI64 ((input.flat_vector 0).get ⟨i, h⟩ * 2)) ∧
      (∀ i, ∀ h : i < (input.flat_vector 0).length,
        -(2 ^ 63) ≤ (input.flat_vector 0).get ⟨i, h⟩ * 2 →
        (input.flat_vector 0).get ⟨i, h⟩ * 2 < 2 ^ 63 →
        out i = (input.flat_vector 0).get ⟨i, h⟩ * 2) ∧
      (∀ i, ¬ i < (input.flat_vector 0).length → out i = output i) ∧
      (input = [[1]] → out 0 = 2) := by
  refine ⟨_, rfl, rfl, ?_, ?_, ?_, ?_⟩
  · intro i h
    simp [h]
  · intro i h h1 h2
    simp only [dif_pos h]
    exact wrapI64_eq_of_bounds _ h1 h2
  · intro i h
    simp [h]
  · intro h
    subst h
    norm_num [DataChunk.flat_vector, wrapI64]

/-- C7 witness: the doubling function applied to the one-row batch `[1]`
writes `2` at row `0`. -/
theorem c7_witness :
    ∃ out, BasicFunc.func ⟨0⟩ [[1]] zeroVec = UserOutcome.ok out ∧ out 0 = 2 := by
  obtain ⟨out, hok, -, -, -, -, hval⟩ := c7_basic_double ⟨0⟩ [[1]] zeroVec
  exact ⟨out, hok, hval rfl⟩

/-- C6: evaluating `ExtraInfoFunc::func` (multiply input by the auxiliary
value) at input `1`: for every auxiliary value `N` the result at row `0` is
`N`; in particular, for `N = 10` the result is `10` and not the `100` the
test `test_extra_info` asserts (and the spec's example repeats). -/
theorem c6_extra_info_eval :
    (∀ N : Int, ∃ out, ExtraInfoFunc.func ⟨N⟩ [[1]] zeroVec = UserOutcome.ok out ∧
      out 0 = N) ∧
    (∃ out, ExtraInfoFunc.func ⟨10⟩ [[1]] zeroVec = UserOutcome.ok out ∧
      out 0 = 10 ∧ out 0 ≠ 100) := by
  constructor
  · intro N
    refine ⟨_, rfl, ?_⟩
    norm_num [DataChunk.flat_vector]
  · refine ⟨_, rfl, ?_, ?_⟩ <;> norm_num [DataChunk.flat_vector]
